import Mathlib

/-
Verification of the `dbg` leveled console logger (dbg.go).

The embedding translates the package into pure Lean functions:
  * the process-wide sink (the standard logger) is a `List String` of the
    messages handed to `log.Printf`, threaded explicitly; an enabled call
    appends exactly one entry (the `log` package's own date prefix and
    trailing newline are transport details outside the message content);
  * `time.Now().UnixNano()` is an oracle argument `now : Int` (Go `int64`
    nanosecond timestamps are nowhere near overflow, so `Int` is faithful);
  * `runtime/debug.Stack()` is an oracle argument `stackText : String`;
  * Go's `fmt` verb scanning is modelled by `sprintfChars` for the verb
    subset the package and its call sites use (`%v` `%s` `%d` `%q`, `%%`,
    missing-argument markers `%!x(MISSING)`, bad-verb markers
    `%!x(type=value)`, trailing `%!(NOVERB)` and `%!(EXTRA ...)`), without
    width/precision/flag/indexing syntax, which never occurs here;
  * the build-time enable constants (`Debugging`, `v`, `i`, `l`) are
    gathered into a `Flags` record so that properties quantifying over
    enabled/disabled configurations are statable; the source values are
    `sourceFlags` (all true).
-/

namespace Dbg

/-- Console color constants from dbg.go: normal / reset. -/
def KNRM : String := "\x1B[0m"

/-- Faint (decreased intensity). -/
def KFNT : String := "\x1B[2m"

/-- Red. -/
def KRED : String := "\x1B[31m"

/-- Green. -/
def KGRN : String := "\x1B[32m"

/-- Yellow. -/
def KYEL : String := "\x1B[33m"

/-- Magenta. -/
def KMAG : String := "\x1B[35m"

/-- Reset sequence (`"\033[0m"` in the source, the same bytes as KNRM). -/
def KRESET : String := "\x1B[0m"

/-- Source constant `Develop` (dbg.go line 39). -/
def Develop : Bool := true

/-- `type Tag string` (dbg.go line 49). -/
abbrev Tag := String

/-- A Go value passed through `...interface\x7b\x7d` variadic arguments:
the model covers the integer and string operands the claims exercise. -/
inductive GoValue where
  | VInt : Int → GoValue
  | VStr : String → GoValue
deriving DecidableEq

/-- The Go type name used by fmt's inline error markers. -/
def GoValue.typeName : GoValue → String
  | .VInt _ => "int"
  | .VStr _ => "string"

/-- Default (`%v`) rendering of a value. -/
def GoValue.vString : GoValue → String
  | .VInt n => toString n
  | .VStr s => s

/-- Rendering of one argument under one verb character, as Go fmt does:
`%v`/`%d`/`%s`/`%q` as documented, a mismatched operand or unknown verb
producing the inline `%!x(type=value)` marker. -/
def formatVerb (c : Char) (a : GoValue) : String :=
  if c = 'v' then a.vString
  else if c = 'd' then
    match a with
    | .VInt n => toString n
    | .VStr s => "%!d(string=" ++ s ++ ")"
  else if c = 's' then
    match a with
    | .VStr s => s
    | .VInt n => "%!s(int=" ++ toString n ++ ")"
  else if c = 'q' then
    match a with
    | .VStr s => "\"" ++ s ++ "\""
    | .VInt n => "'" ++ String.singleton (Char.ofNat n.toNat) ++ "'"
  else "%!" ++ String.singleton c ++ "(" ++ a.typeName ++ "=" ++ a.vString ++ ")"

/-- The comma-separated `type=value` list inside a `%!(EXTRA ...)` marker. -/
def extrasList : List GoValue → String
  | [] => ""
  | [a] => a.typeName ++ "=" ++ a.vString
  | a :: rest => a.typeName ++ "=" ++ a.vString ++ ", " ++ extrasList rest

/-- Go `fmt.Sprintf` scanning over the format's characters: literal
characters pass through, `%%` emits `%`, a verb consumes the next argument
(or emits `%!x(MISSING)` when none is left), a trailing lone `%` emits
`%!(NOVERB)`, and unconsumed arguments are reported at the end as
`%!(EXTRA type=value, ...)`. -/
def sprintfChars : List Char → List GoValue → List Char
  | [], args =>
    if args.isEmpty then [] else ("%!(EXTRA " ++ extrasList args ++ ")").data
  | c :: cs, args =>
    if c = '%' then
      match cs with
      | [] => "%!(NOVERB)".data ++ sprintfChars [] args
      | c2 :: cs2 =>
        if c2 = '%' then '%' :: sprintfChars cs2 args
        else
          match args with
          | [] => ("%!" ++ String.singleton c2 ++ "(MISSING)").data ++ sprintfChars cs2 []
          | a :: rest => (formatVerb c2 a).data ++ sprintfChars cs2 rest
    else c :: sprintfChars cs args

/-- `fmt.Sprintf` on strings. -/
def sprintf (format : String) (args : List GoValue) : String :=
  ⟨sprintfChars format.data args⟩

/-- The format's verbs exactly consume the argument list: scanning the
format never hits a missing argument, never ends in a lone '%', and
finishes with no arguments left over — the well-formedness condition under
which fmt emits neither MISSING, NOVERB nor EXTRA markers. -/
def consumesExactly : List Char → List GoValue → Bool
  | [], args => args.isEmpty
  | c :: cs, args =>
    if c = '%' then
      match cs with
      | [] => false
      | c2 :: cs2 =>
        if c2 = '%' then consumesExactly cs2 args
        else
          match args with
          | [] => false
          | _ :: rest => consumesExactly cs2 rest
    else consumesExactly cs args

/-- The build-time enable switches of dbg.go lines 35 and 40-42:
`Debugging : debug`, `v : verbose`, `i : info`, `l : lg`. -/
structure Flags where
  debugging : Bool
  v : Bool
  i : Bool
  l : Bool
deriving DecidableEq

/-- The constants' values in the source: all switches are `true`. -/
def sourceFlags : Flags := ⟨true, true, true, true⟩

/-- `func (d debug) P` (dbg.go lines 106-110): when the flag is set, hand
`preposition+"/"+tag+" : "+format+KRESET` as the FORMAT argument of
`log.Printf` together with the variadic args; otherwise do nothing. -/
def debugP (d : Bool) (preposition : String) (tag : Tag) (format : String)
    (args : List GoValue) (sink : List String) : List String :=
  if d then sink ++ [sprintf (preposition ++ "/" ++ tag ++ " : " ++ format ++ KRESET) args]
  else sink

/-- `func (l lg) P` (dbg.go lines 122-126), transcribed from its own body. -/
def lgP (l : Bool) (preposition : String) (tag : Tag) (format : String)
    (args : List GoValue) (sink : List String) : List String :=
  if l then sink ++ [sprintf (preposition ++ "/" ++ tag ++ " : " ++ format ++ KRESET) args]
  else sink

/-- `func (i info) P` (dbg.go lines 129-134), transcribed from its own body. -/
def infoP (i : Bool) (preposition : String) (tag : Tag) (format : String)
    (args : List GoValue) (sink : List String) : List String :=
  if i then sink ++ [sprintf (preposition ++ "/" ++ tag ++ " : " ++ format ++ KRESET) args]
  else sink

/-- `func (v verbose) P` (dbg.go lines 137-142), transcribed from its own body. -/
def verboseP (v : Bool) (preposition : String) (tag : Tag) (format : String)
    (args : List GoValue) (sink : List String) : List String :=
  if v then sink ++ [sprintf (preposition ++ "/" ++ tag ++ " : " ++ format ++ KRESET) args]
  else sink

/-- `func D` (dbg.go lines 66-68): `Debugging.P(KNRM+"DEBUG", tag, format, args...)`. -/
def D (fl : Flags) (tag : Tag) (format : String) (args : List GoValue)
    (sink : List String) : List String :=
  debugP fl.debugging (KNRM ++ "DEBUG") tag format args sink

/-- `func V` (dbg.go lines 71-73): `v.P(KFNT+"VERBOSE", tag, format, args...)`. -/
def V (fl : Flags) (tag : Tag) (format : String) (args : List GoValue)
    (sink : List String) : List String :=
  verboseP fl.v (KFNT ++ "VERBOSE") tag format args sink

/-- `func I` (dbg.go lines 76-80): take the timestamp, emit through `i.P`
with the timestamp prefixed into the format, return the timestamp. -/
def I (fl : Flags) (now : Int) (tag : Tag) (format : String) (args : List GoValue)
    (sink : List String) : Int × List String :=
  let timeKey := now
  (timeKey, infoP fl.i (KGRN ++ "INFO") tag (toString timeKey ++ " -- " ++ format) args sink)

/-- `func W` (dbg.go lines 83-87). -/
def W (fl : Flags) (now : Int) (tag : Tag) (format : String) (args : List GoValue)
    (sink : List String) : Int × List String :=
  let timeKey := now
  (timeKey, lgP fl.l (KYEL ++ "WARN") tag (toString timeKey ++ " -- " ++ format) args sink)

/-- `func E` (dbg.go lines 90-96): take the timestamp, interpolate the args
into the format, append `Sprintf("\n StackTrace : %v", stack)`, then emit
the composed string through `l.P` WITHOUT arguments (so `l.P` re-scans it
as a format string), and return the timestamp. -/
def E (fl : Flags) (now : Int) (stackText : String) (tag : Tag) (format : String)
    (args : List GoValue) (sink : List String) : Int × List String :=
  let timeKey := now
  let format1 := sprintf format args
  let format2 := format1 ++ sprintf "\n StackTrace : %v" [GoValue.VStr stackText]
  (timeKey, lgP fl.l (KRED ++ "ERROR") tag (toString timeKey ++ " -- " ++ format2) [] sink)

/-- `func WTF` (dbg.go lines 99-103). -/
def WTF (fl : Flags) (now : Int) (tag : Tag) (format : String) (args : List GoValue)
    (sink : List String) : Int × List String :=
  let timeKey := now
  (timeKey, lgP fl.l (KMAG ++ "WTF") tag (toString timeKey ++ " -- " ++ format) args sink)

/-- The `Path` and `RawQuery` components of Go's `url.URL` that
`GetRequest` can observe. -/
structure GoURL where
  path : String
  rawQuery : String
deriving DecidableEq

/-- The `Method` and `URL` components of Go's `http.Request` that
`GetRequest` can observe. -/
structure Request where
  method : String
  url : GoURL
deriving DecidableEq

/-- `GetRequest` returns `interface\x7b\x7d`: either the request object
itself or a summary string. -/
inductive ReqView where
  | full : Request → ReqView
  | str : String → ReqView
deriving DecidableEq

/-- `func GetRequest` (dbg.go lines 113-119) generalized over the develop
switch: the full request in develop mode, otherwise
`fmt.Sprintf("[%s] %q %v\n", r.Method, r.URL.Path)` (note: three verbs,
two arguments). -/
def GetRequestMode (develop : Bool) (r : Request) : ReqView :=
  if develop then ReqView.full r
  else ReqView.str (sprintf "[%s] %q %v\n" [GoValue.VStr r.method, GoValue.VStr r.url.path])

/-- `func GetRequest` exactly as in the source, gated by the constant `Develop`. -/
def GetRequest (r : Request) : ReqView :=
  if Develop then ReqView.full r
  else ReqView.str (sprintf "[%s] %q %v\n" [GoValue.VStr r.method, GoValue.VStr r.url.path])

/-- The four timestamp-returning level functions, as one indexed family
(used to state properties uniformly over INFO/WARN/ERROR/WTF). -/
inductive TSLevel where
  | info
  | warn
  | error
  | wtf
deriving DecidableEq

/-- Dispatch a timestamp-returning call (the stack oracle is only read by ERROR). -/
def callTS (lvl : TSLevel) (fl : Flags) (now : Int) (stackText : String) (tag : Tag)
    (format : String) (args : List GoValue) (sink : List String) : Int × List String :=
  match lvl with
  | .info => I fl now tag format args sink
  | .warn => W fl now tag format args sink
  | .error => E fl now stackText tag format args sink
  | .wtf => WTF fl now tag format args sink

end Dbg

namespace Dbg

theorem sprintfChars_cons (c : Char) (cs : List Char) (args : List GoValue)
    (h : ¬ c = '%') :
    sprintfChars (c :: cs) args = c :: sprintfChars cs args := by
  rw [sprintfChars.eq_def]
  simp [h]

theorem sprintfChars_passthrough (p rest : List Char) (args : List GoValue)
    (h : ∀ c ∈ p, ¬ c = '%') :
    sprintfChars (p ++ rest) args = p ++ sprintfChars rest args := by
  induction p with
  | nil => rfl
  | cons c cs ih =>
    rw [List.cons_append, sprintfChars_cons c _ _ (h c (List.mem_cons_self c cs)),
      ih (fun x hx => h x (List.mem_cons_of_mem c hx)), List.cons_append]

theorem sprintfChars_nil_nil : sprintfChars [] [] = [] := rfl

theorem sprintfChars_pf (p : List Char) (h : ∀ c ∈ p, ¬ c = '%') :
    sprintfChars p [] = p := by
  have h2 := sprintfChars_passthrough p [] [] h
  simpa [sprintfChars_nil_nil] using h2

theorem sprintfChars_verb_d (cs : List Char) (n : Int) (args : List GoValue) :
    sprintfChars ('%' :: 'd' :: cs) (GoValue.VInt n :: args) =
      (toString n).data ++ sprintfChars cs args := by
  rw [sprintfChars.eq_def]
  simp [formatVerb]

theorem sprintfChars_split_d (p q : List Char) (n : Int)
    (hp : ∀ c ∈ p, ¬ c = '%') (hq : ∀ c ∈ q, ¬ c = '%') :
    sprintfChars (p ++ '%' :: 'd' :: q) [GoValue.VInt n] =
      p ++ ((toString n).data ++ q) := by
  rw [sprintfChars_passthrough p _ _ hp, sprintfChars_verb_d, sprintfChars_pf q hq]

theorem digitChar_ne_percent (n : Nat) : ¬ Nat.digitChar n = '%' := by
  match n with
  | 0 | 1 | 2 | 3 | 4 | 5 | 6 | 7 | 8 | 9 | 10 | 11 | 12 | 13 | 14 | 15 => decide
  | m + 16 =>
    have h : Nat.digitChar (m + 16) = '*' := by
      unfold Nat.digitChar
      repeat rw [if_neg (by omega)]
    rw [h]
    decide

theorem toDigitsCore_pf (b : Nat) (fuel : Nat) :
    ∀ (n : Nat) (ds : List Char), (∀ c ∈ ds, ¬ c = '%') →
      ∀ c ∈ Nat.toDigitsCore b fuel n ds, ¬ c = '%' := by
  induction fuel with
  | zero =>
    intro n ds hds c hc
    exact hds c hc
  | succ f ih =>
    intro n ds hds c hc
    rw [Nat.toDigitsCore] at hc
    have hcons : ∀ x ∈ Nat.digitChar (n % b) :: ds, ¬ x = '%' := by
      intro x hx
      rcases List.mem_cons.mp hx with h1 | h2
      · rw [h1]; exact digitChar_ne_percent _
      · exact hds x h2
    split at hc
    · exact hcons c hc
    · exact ih (n / b) _ hcons c hc

theorem nat_repr_pf (n : Nat) : ∀ c ∈ (Nat.repr n).data, ¬ c = '%' :=
  toDigitsCore_pf 10 (n + 1) n [] (by intro c hc; cases hc)

theorem toString_int_pf (n : Int) : ∀ c ∈ (toString n).data, ¬ c = '%' := by
  cases n with
  | ofNat m => exact nat_repr_pf m
  | negSucc m =>
    intro c hc
    have : (toString (Int.negSucc m)).data = '-' :: (Nat.repr (m + 1)).data := rfl
    rw [this] at hc
    rcases List.mem_cons.mp hc with h1 | h2
    · rw [h1]; decide
    · exact nat_repr_pf (m + 1) c h2


/-- C1: For each of the timestamp-returning level functions I (INFO), W
(WARN), E (ERROR) and WTF, the nanosecond timestamp is the clock reading
taken before the enable gate and is returned to the caller unconditionally:
for every flag configuration, tag, format and args the returned value is
exactly the clock reading, hence the same whether the level's flag is
enabled or disabled; the gate decides only the write. -/
theorem c1_timestamp_returned_unconditionally (fl fl' : Flags) (now : Int)
    (stackText : String) (tag : Tag) (format : String) (args : List GoValue)
    (sink : List String) :
    (I fl now tag format args sink).1 = now ∧
    (W fl now tag format args sink).1 = now ∧
    (E fl now stackText tag format args sink).1 = now ∧
    (WTF fl now tag format args sink).1 = now ∧
    (I fl now tag format args sink).1 = (I fl' now tag format args sink).1 ∧
    (W fl now tag format args sink).1 = (W fl' now tag format args sink).1 ∧
    (E fl now stackText tag format args sink).1 =
      (E fl' now stackText tag format args sink).1 ∧
    (WTF fl now tag format args sink).1 = (WTF fl' now tag format args sink).1 :=
  ⟨rfl, rfl, rfl, rfl, rfl, rfl, rfl, rfl⟩

/-- C2: For every level function (D, V, I, W, E, WTF) and every tag, format
and args, if that level's enable flag is false then the call performs no
write to the process-wide sink: the sink is unchanged by the call. -/
theorem c2_disabled_level_writes_nothing (fl : Flags) (now : Int)
    (stackText : String) (tag : Tag) (format : String) (args : List GoValue)
    (sink : List String) :
    (fl.debugging = false → D fl tag format args sink = sink) ∧
    (fl.v = false → V fl tag format args sink = sink) ∧
    (fl.i = false → (I fl now tag format args sink).2 = sink) ∧
    (fl.l = false →
      (W fl now tag format args sink).2 = sink ∧
      (E fl now stackText tag format args sink).2 = sink ∧
      (WTF fl now tag format args sink).2 = sink) := by
  refine ⟨fun h => ?_, fun h => ?_, fun h => ?_, fun h => ⟨?_, ?_, ?_⟩⟩ <;>
    simp_all [D, V, I, W, E, WTF, debugP, verboseP, infoP, lgP]

/-- Witness for C2 at the all-disabled configuration and a concrete call. -/
theorem c2_disabled_level_writes_nothing_witness :
    D ⟨false, false, false, false⟩ "tag" "msg %d" [GoValue.VInt 1] ["prior"] = ["prior"] ∧
    (W ⟨false, false, false, false⟩ 5 "tag" "msg" [] ["prior"]).2 = ["prior"] :=
  ⟨(c2_disabled_level_writes_nothing ⟨false, false, false, false⟩ 5 "st" "tag"
      "msg %d" [GoValue.VInt 1] ["prior"]).1 rfl,
   ((c2_disabled_level_writes_nothing ⟨false, false, false, false⟩ 5 "st" "tag"
      "msg" [] ["prior"]).2.2.2 rfl).1⟩

/-- C10: the four per-type writer methods debug.P, lg.P, info.P and
verbose.P are behaviorally identical: for equal flag values and identical
preposition, tag, format and args they produce exactly the same output. -/
theorem c10_writer_methods_identical (b : Bool) (preposition : String) (tag : Tag)
    (format : String) (args : List GoValue) (sink : List String) :
    debugP b preposition tag format args sink = lgP b preposition tag format args sink ∧
    lgP b preposition tag format args sink = infoP b preposition tag format args sink ∧
    infoP b preposition tag format args sink = verboseP b preposition tag format args sink :=
  ⟨rfl, rfl, rfl⟩

/-- C8: for INFO, WARN, ERROR and WTF, the returned id is exactly the
clock reading at the call, so across any two calls (of any of the four
functions, under any flags/tags/formats/args/sinks), if the first call's
clock reading is at most the second's — which the non-decreasing process
clock guarantees when call A completes before call B starts — then the
first returned id is at most the second. -/
theorem c8_returned_ids_monotone (la lb : TSLevel) (fla flb : Flags)
    (nowA nowB : Int) (stA stB : String) (tagA tagB : Tag) (fA fB : String)
    (argsA argsB : List GoValue) (sinkA sinkB : List String)
    (h : nowA ≤ nowB) :
    (callTS la fla nowA stA tagA fA argsA sinkA).1 ≤
      (callTS lb flb nowB stB tagB fB argsB sinkB).1 := by
  have ha : (callTS la fla nowA stA tagA fA argsA sinkA).1 = nowA := by
    cases la <;> rfl
  have hb : (callTS lb flb nowB stB tagB fB argsB sinkB).1 = nowB := by
    cases lb <;> rfl
  rw [ha, hb]
  exact h

/-- Witness for C8: a WARN call at clock 3 followed by an INFO call at clock 7. -/
theorem c8_returned_ids_monotone_witness :
    (3 : Int) ≤ 7 ∧
    (callTS TSLevel.warn sourceFlags 3 "" "a" "m" [] []).1 ≤
      (callTS TSLevel.info sourceFlags 7 "" "b" "m2" [] []).1 :=
  ⟨by decide,
   c8_returned_ids_monotone TSLevel.warn TSLevel.info sourceFlags sourceFlags
     3 7 "" "" "a" "b" "m" "m2" [] [] [] [] (by decide)⟩

/-- C5 counterexample: the claim fails as stated because WARN, ERROR and
WTF share the single enable flag `l`. The configurations
⟨true,true,true,true⟩ and ⟨true,true,true,false⟩ differ only in WARN's
enable flag (they agree on the DEBUG, VERBOSE and INFO flags), yet ERROR —
another level — emits differently under the two configurations. -/
theorem c5_counterexample :
    (sourceFlags.debugging = (⟨true, true, true, false⟩ : Flags).debugging ∧
     sourceFlags.v = (⟨true, true, true, false⟩ : Flags).v ∧
     sourceFlags.i = (⟨true, true, true, false⟩ : Flags).i) ∧
    (E sourceFlags 5 "st" "t" "m" [] []).2 ≠
      (E (⟨true, true, true, false⟩ : Flags) 5 "st" "t" "m" [] []).2 :=
  ⟨⟨rfl, rfl, rfl⟩, by decide⟩

/-- C5 amended: the enable flags are independent per tier, not per level:
DEBUG, VERBOSE and INFO each have their own boolean while WARN, ERROR and
WTF share the flag `l`. A level's emission depends only on its own tier's
flag, so two configurations agreeing on that flag give that level identical
behavior — in particular disabling only INFO leaves WARN's and ERROR's
output unchanged. -/
theorem c5_amended_tier_independence (c c' : Flags) (now : Int)
    (stackText : String) (tag : Tag) (format : String) (args : List GoValue)
    (sink : List String) :
    (c.debugging = c'.debugging →
      D c tag format args sink = D c' tag format args sink) ∧
    (c.v = c'.v → V c tag format args sink = V c' tag format args sink) ∧
    (c.i = c'.i → I c now tag format args sink = I c' now tag format args sink) ∧
    (c.l = c'.l →
      W c now tag format args sink = W c' now tag format args sink ∧
      E c now stackText tag format args sink = E c' now stackText tag format args sink ∧
      WTF c now tag format args sink = WTF c' now tag format args sink) := by
  refine ⟨fun h => ?_, fun h => ?_, fun h => ?_, fun h => ⟨?_, ?_, ?_⟩⟩ <;>
    simp_all [D, V, I, W, E, WTF, debugP, verboseP, infoP, lgP]

/-- Witness for C5 amended: disabling only INFO leaves WARN's output unchanged. -/
theorem c5_amended_tier_independence_witness :
    W ⟨true, true, true, true⟩ 5 "t" "m" [] [] =
      W ⟨true, true, false, true⟩ 5 "t" "m" [] [] :=
  ((c5_amended_tier_independence ⟨true, true, true, true⟩ ⟨true, true, false, true⟩
      5 "st" "t" "m" [] []).2.2.2 rfl).1


/-- C6: GetRequest on a request with method "GET" and path "/x": with the
develop switch on (the source's constant value) it returns the full request
object; with it off it returns a string that contains GET and /x — the
method and the bare path only — and no query parameters (the summary prints
`r.URL.Path`, never the raw query; it also carries fmt's `%!v(MISSING)`
marker since the source's format has three verbs but two arguments). -/
theorem c6_get_request_summary (dev : Bool) :
    GetRequest ⟨"GET", ⟨"/x", "key=value"⟩⟩ =
      ReqView.full ⟨"GET", ⟨"/x", "key=value"⟩⟩ ∧
    (dev = true →
      GetRequestMode dev ⟨"GET", ⟨"/x", "key=value"⟩⟩ =
        ReqView.full ⟨"GET", ⟨"/x", "key=value"⟩⟩) ∧
    (dev = false →
      GetRequestMode dev ⟨"GET", ⟨"/x", "key=value"⟩⟩ =
        ReqView.str "[GET] \"/x\" %!v(MISSING)\n" ∧
      "GET".data <:+: "[GET] \"/x\" %!v(MISSING)\n".data ∧
      "/x".data <:+: "[GET] \"/x\" %!v(MISSING)\n".data ∧
      ¬ "key=value".data <:+: "[GET] \"/x\" %!v(MISSING)\n".data ∧
      ¬ "?".data <:+: "[GET] \"/x\" %!v(MISSING)\n".data) := by
  refine ⟨rfl, fun h => ?_, fun h => ?_⟩
  · rw [h]
    rfl
  · rw [h]
    exact ⟨by decide, by decide, by decide, by decide, by decide⟩

/-- Witness for C6 at both values of the develop switch. -/
theorem c6_get_request_summary_witness :
    GetRequestMode false ⟨"GET", ⟨"/x", "key=value"⟩⟩ =
      ReqView.str "[GET] \"/x\" %!v(MISSING)\n" ∧
    GetRequestMode true ⟨"GET", ⟨"/x", "key=value"⟩⟩ =
      ReqView.full ⟨"GET", ⟨"/x", "key=value"⟩⟩ :=
  ⟨((c6_get_request_summary false).2.2 rfl).1, (c6_get_request_summary true).2.1 rfl⟩

/-- The shared writer shape: an enabled P call appends exactly one entry,
a disabled one appends none. -/
theorem lgP_extends (b : Bool) (prep : String) (tag : Tag) (format : String)
    (args : List GoValue) (sink : List String) :
    ∃ t, lgP b prep tag format args sink = sink ++ t ∧ t.length ≤ 1 := by
  cases b
  · exact ⟨[], by simp [lgP]⟩
  · exact ⟨[sprintf (prep ++ "/" ++ tag ++ " : " ++ format ++ KRESET) args], by simp [lgP]⟩

/-- C7: no level function can fail the caller's flow: for every flag
configuration, tag, format and args — including mismatched verbs/args —
each call completes, appending at most one entry to the sink (the model of
Go fmt is total: there is no panic path); a mismatch surfaces only as the
platform's inline marker, e.g. WARN with format "oops %s" and no args emits
a line carrying the literal "%!s(MISSING)". -/
theorem c7_no_failure_inline_markers (fl : Flags) (now : Int) (stackText : String)
    (tag : Tag) (format : String) (args : List GoValue) (sink : List String) :
    (∃ t, D fl tag format args sink = sink ++ t ∧ t.length ≤ 1) ∧
    (∃ t, V fl tag format args sink = sink ++ t ∧ t.length ≤ 1) ∧
    (∃ t, (I fl now tag format args sink).2 = sink ++ t ∧ t.length ≤ 1) ∧
    (∃ t, (W fl now tag format args sink).2 = sink ++ t ∧ t.length ≤ 1) ∧
    (∃ t, (E fl now stackText tag format args sink).2 = sink ++ t ∧ t.length ≤ 1) ∧
    (∃ t, (WTF fl now tag format args sink).2 = sink ++ t ∧ t.length ≤ 1) ∧
    (fl.l = true →
      (W fl 5 "t" "oops %s" [] []).2 =
        ["\x1B[33mWARN/t : 5 -- oops %!s(MISSING)\x1B[0m"]) := by
  refine ⟨?_, ?_, ?_, ?_, ?_, ?_, fun h => ?_⟩
  · exact lgP_extends fl.debugging (KNRM ++ "DEBUG") tag format args sink
  · exact lgP_extends fl.v (KFNT ++ "VERBOSE") tag format args sink
  · exact lgP_extends fl.i (KGRN ++ "INFO") tag (toString now ++ " -- " ++ format) args sink
  · exact lgP_extends fl.l (KYEL ++ "WARN") tag (toString now ++ " -- " ++ format) args sink
  · exact lgP_extends fl.l (KRED ++ "ERROR") tag
      (toString now ++ " -- " ++ (sprintf format args ++
        sprintf "\n StackTrace : %v" [GoValue.VStr stackText])) [] sink
  · exact lgP_extends fl.l (KMAG ++ "WTF") tag (toString now ++ " -- " ++ format) args sink
  · simp only [W, lgP, h]
    decide

/-- Witness for C7: the mismatch marker on an enabled WARN call. -/
theorem c7_no_failure_inline_markers_witness :
    (W sourceFlags 5 "t" "oops %s" [] []).2 =
      ["\x1B[33mWARN/t : 5 -- oops %!s(MISSING)\x1B[0m"] :=
  (c7_no_failure_inline_markers sourceFlags 5 "st" "t" "oops %s" [] []).2.2.2.2.2.2 rfl


theorem sprintfChars_verb_v_str (cs : List Char) (s : String) (args : List GoValue) :
    sprintfChars ('%' :: 'v' :: cs) (GoValue.VStr s :: args) =
      s.data ++ sprintfChars cs args := by
  rw [sprintfChars.eq_def]
  simp [formatVerb, GoValue.vString]

/-- C4 counterexample: the claim fails as stated: the enabled WARN call
with tag "net", format "retry" and one argument 3 has no verb to consume
the argument, so fmt appends the EXTRA marker after the reset sequence and
the emitted line does not end with a color-reset sequence. -/
theorem c4_counterexample :
    (W sourceFlags 5 "net" "retry" [GoValue.VInt 3] []).2 =
      ["\x1B[33mWARN/net : 5 -- retry\x1B[0m%!(EXTRA int=3)"] ∧
    ¬ "\x1B[0m".data <:+ "\x1B[33mWARN/net : 5 -- retry\x1B[0m%!(EXTRA int=3)".data :=
  ⟨by decide, by decide⟩

/-- Percent-freeness is preserved by list append. -/
theorem pf_append {xs ys : List Char} (hx : ∀ c ∈ xs, ¬ c = '%')
    (hy : ∀ c ∈ ys, ¬ c = '%') : ∀ c ∈ xs ++ ys, ¬ c = '%' := by
  intro c hc
  rcases List.mem_append.mp hc with h | h
  · exact hx c h
  · exact hy c h

/-- The `Sprintf` at dbg.go line 93: `%v` consumes the stack text, so at
this first formatting stage the stack text is embedded literally. -/
theorem stack_sprintf (stackText : String) :
    sprintf "\n StackTrace : %v" [GoValue.VStr stackText] =
      "\n StackTrace : " ++ stackText := by
  apply String.ext
  have e : "\n StackTrace : %v".data = "\n StackTrace : ".data ++ '%' :: 'v' :: [] := by
    decide
  show sprintfChars ("\n StackTrace : %v".data) [GoValue.VStr stackText] = _
  rw [e, sprintfChars_passthrough _ _ _ (by decide), sprintfChars_verb_v_str]
  simp [String.data_append, sprintfChars_nil_nil]

set_option maxRecDepth 8192 in
/-- C3 counterexample: with stack text "boom %d trace" (enabled flags, tag
"db", format "conn lost", no args), the emitted line does NOT contain the
stack-trace text literally: the `%d` inside it WAS reinterpreted as a
format verb by the shared writer's second scan (E passes the composed
string as `log.Printf`'s format argument with no args), surfacing as
"%!d(MISSING)". This falsifies the claim's assertion that %-verbs inside
the stack-trace text are not reinterpreted. -/
theorem c3_counterexample :
    (E sourceFlags 5 "boom %d trace" "db" "conn lost" [] []).2 =
      ["\x1B[31mERROR/db : 5 -- conn lost\n StackTrace : boom %!d(MISSING) trace\x1B[0m"] ∧
    ¬ "boom %d trace".data <:+:
      "\x1B[31mERROR/db : 5 -- conn lost\n StackTrace : boom %!d(MISSING) trace\x1B[0m".data ∧
    "%!d(MISSING)".data <:+:
      "\x1B[31mERROR/db : 5 -- conn lost\n StackTrace : boom %!d(MISSING) trace\x1B[0m".data :=
  ⟨by decide, by decide, by decide⟩

/-- C3 amended: E first interpolates args into the format string, then
appends the captured call-stack text under the literal "StackTrace :"
header, and hands the composed string — with no further arguments — to the
shared writer AS ITS FORMAT STRING; the writer re-scans it, so '%'-style
verbs occurring inside the stack-trace text ARE reinterpreted (with no
arguments left they surface as "%!x(MISSING)" markers). When tag, message
and stack text contain no '%', the emitted line is exactly the composed
text and carries the literal "StackTrace :" header. -/
theorem c3_amended (fl : Flags) (now : Int) (stackText tag format : String)
    (args : List GoValue) (sink : List String) (hl : fl.l = true) :
    (E fl now stackText tag format args sink).2 =
      sink ++ [sprintf (KRED ++ "ERROR" ++ "/" ++ tag ++ " : " ++ toString now ++ " -- " ++
        sprintf format args ++ "\n StackTrace : " ++ stackText ++ KRESET) []] ∧
    ((∀ c ∈ tag.data, ¬ c = '%') → (∀ c ∈ (sprintf format args).data, ¬ c = '%') →
      (∀ c ∈ stackText.data, ¬ c = '%') →
      (E fl now stackText tag format args sink).2 =
        sink ++ [KRED ++ "ERROR" ++ "/" ++ tag ++ " : " ++ toString now ++ " -- " ++
          sprintf format args ++ "\n StackTrace : " ++ stackText ++ KRESET] ∧
      "StackTrace :".data <:+: (KRED ++ "ERROR" ++ "/" ++ tag ++ " : " ++ toString now ++
        " -- " ++ sprintf format args ++ "\n StackTrace : " ++ stackText ++ KRESET).data) := by
  have ha : (E fl now stackText tag format args sink).2 =
      sink ++ [sprintf (KRED ++ "ERROR" ++ "/" ++ tag ++ " : " ++ toString now ++ " -- " ++
        sprintf format args ++ "\n StackTrace : " ++ stackText ++ KRESET) []] := by
    simp only [E, lgP, hl, if_true, stack_sprintf]
    refine congrArg (fun x => sink ++ [x]) ?_
    refine congrArg (fun s => sprintf s []) ?_
    apply String.ext
    simp only [String.data_append, List.append_assoc]
  refine ⟨ha, fun htag hfmt hstack => ?_⟩
  have hCpf : ∀ c ∈ (KRED ++ "ERROR" ++ "/" ++ tag ++ " : " ++ toString now ++ " -- " ++
      sprintf format args ++ "\n StackTrace : " ++ stackText ++ KRESET).data, ¬ c = '%' := by
    simp only [String.data_append, List.append_assoc]
    exact pf_append (by decide) (pf_append (by decide) (pf_append (by decide)
      (pf_append htag (pf_append (by decide) (pf_append (toString_int_pf now)
      (pf_append (by decide) (pf_append hfmt (pf_append (by decide)
      (pf_append hstack (by decide))))))))))
  have hline : sprintf (KRED ++ "ERROR" ++ "/" ++ tag ++ " : " ++ toString now ++ " -- " ++
      sprintf format args ++ "\n StackTrace : " ++ stackText ++ KRESET) [] =
      KRED ++ "ERROR" ++ "/" ++ tag ++ " : " ++ toString now ++ " -- " ++
        sprintf format args ++ "\n StackTrace : " ++ stackText ++ KRESET := by
    apply String.ext
    exact sprintfChars_pf _ hCpf
  refine ⟨by rw [ha, hline], ?_⟩
  have e2 : "\n StackTrace : ".data = "\n ".data ++ "StackTrace :".data ++ " ".data := by
    decide
  refine ⟨KRED.data ++ "ERROR".data ++ "/".data ++ tag.data ++ " : ".data ++
    (toString now).data ++ " -- ".data ++ (sprintf format args).data ++ "\n ".data,
    " ".data ++ stackText.data ++ KRESET.data, ?_⟩
  simp only [String.data_append, e2, List.append_assoc, List.cons_append, List.nil_append]


set_option maxRecDepth 8192 in
/-- Witness for C3 amended: a concrete enabled ERROR call. -/
theorem c3_amended_witness :
    (E sourceFlags 7 "goroutine 1 main.go:10" "db" "conn lost %s"
        [GoValue.VStr "srv"] []).2 =
      ["\x1B[31mERROR/db : 7 -- conn lost srv\n StackTrace : goroutine 1 main.go:10\x1B[0m"] := by
  have h := ((c3_amended sourceFlags 7 "goroutine 1 main.go:10" "db" "conn lost %s"
      [GoValue.VStr "srv"] [] rfl).2 (by decide) (by decide) (by decide)).1
  rw [h]
  decide


set_option maxRecDepth 8192 in
/-- C9: for every level function except ERROR, the caller-supplied tag is
concatenated directly into the format argument of the final write call, so
a '%' inside the tag is interpreted as a formatting verb at write time and
consumes the variadic args: with tag "p%d", format "m" and argument 7, the
emitted line of D, V, I, W and WTF renders the tag position as "p7" (the
literal tag text "p%d" never appears); tags are not escaped or validated,
and the empty tag is accepted, yielding "DEBUG/ : m". -/
theorem c9_tag_interpolated_unescaped (fl : Flags) (now : Int) (sink : List String)
    (hd : fl.debugging = true) (hv : fl.v = true) (hi : fl.i = true)
    (hl : fl.l = true) :
    D fl "p%d" "m" [GoValue.VInt 7] sink = sink ++ ["\x1B[0mDEBUG/p7 : m\x1B[0m"] ∧
    V fl "p%d" "m" [GoValue.VInt 7] sink = sink ++ ["\x1B[2mVERBOSE/p7 : m\x1B[0m"] ∧
    (I fl now "p%d" "m" [GoValue.VInt 7] sink).2 =
      sink ++ [⟨"\x1B[32mINFO/p7 : ".data ++ (toString now).data ++ " -- m\x1B[0m".data⟩] ∧
    (W fl now "p%d" "m" [GoValue.VInt 7] sink).2 =
      sink ++ [⟨"\x1B[33mWARN/p7 : ".data ++ (toString now).data ++ " -- m\x1B[0m".data⟩] ∧
    (WTF fl now "p%d" "m" [GoValue.VInt 7] sink).2 =
      sink ++ [⟨"\x1B[35mWTF/p7 : ".data ++ (toString now).data ++ " -- m\x1B[0m".data⟩] ∧
    D fl "" "m" [] sink = sink ++ ["\x1B[0mDEBUG/ : m\x1B[0m"] := by
  have et : "p%d".data = 'p' :: '%' :: 'd' :: [] := by decide
  have g7 : (toString (7 : Int)).data = ['7'] := by decide
  refine ⟨?_, ?_, ?_, ?_, ?_, ?_⟩
  · simp only [D, debugP, hd, if_true]
    refine congrArg (fun x => sink ++ [x]) ?_
    decide
  · simp only [V, verboseP, hv, if_true]
    refine congrArg (fun x => sink ++ [x]) ?_
    decide
  · simp only [I, infoP, hi, if_true]
    refine congrArg (fun x => sink ++ [x]) ?_
    apply String.ext
    show sprintfChars (((KGRN ++ "INFO") ++ "/" ++ "p%d" ++ " : " ++
      (toString now ++ " -- " ++ "m") ++ KRESET).data) [GoValue.VInt 7] = _
    simp only [String.data_append, et, List.cons_append, List.nil_append, List.append_assoc]
    rw [sprintfChars_passthrough KGRN.data _ _ (by decide)]
    repeat rw [sprintfChars_cons _ _ _ (by decide)]
    rw [sprintfChars_verb_d]
    repeat rw [sprintfChars_cons _ _ _ (by decide)]
    rw [sprintfChars_passthrough (toString now).data _ _ (toString_int_pf now)]
    repeat rw [sprintfChars_cons _ _ _ (by decide)]
    rw [sprintfChars_pf KRESET.data (by decide)]
    have k1 : KGRN.data = ['\x1B', '[', '3', '2', 'm'] := by decide
    have k2 : KRESET.data = ['\x1B', '[', '0', 'm'] := by decide
    simp only [g7, k1, k2, List.cons_append, List.nil_append, List.append_assoc]
  · simp only [W, lgP, hl, if_true]
    refine congrArg (fun x => sink ++ [x]) ?_
    apply String.ext
    show sprintfChars (((KYEL ++ "WARN") ++ "/" ++ "p%d" ++ " : " ++
      (toString now ++ " -- " ++ "m") ++ KRESET).data) [GoValue.VInt 7] = _
    simp only [String.data_append, et, List.cons_append, List.nil_append, List.append_assoc]
    rw [sprintfChars_passthrough KYEL.data _ _ (by decide)]
    repeat rw [sprintfChars_cons _ _ _ (by decide)]
    rw [sprintfChars_verb_d]
    repeat rw [sprintfChars_cons _ _ _ (by decide)]
    rw [sprintfChars_passthrough (toString now).data _ _ (toString_int_pf now)]
    repeat rw [sprintfChars_cons _ _ _ (by decide)]
    rw [sprintfChars_pf KRESET.data (by decide)]
    have k1 : KYEL.data = ['\x1B', '[', '3', '3', 'm'] := by decide
    have k2 : KRESET.data = ['\x1B', '[', '0', 'm'] := by decide
    simp only [g7, k1, k2, List.cons_append, List.nil_append, List.append_assoc]
  · simp only [WTF, lgP, hl, if_true]
    refine congrArg (fun x => sink ++ [x]) ?_
    apply String.ext
    show sprintfChars (((KMAG ++ "WTF") ++ "/" ++ "p%d" ++ " : " ++
      (toString now ++ " -- " ++ "m") ++ KRESET).data) [GoValue.VInt 7] = _
    simp only [String.data_append, et, List.cons_append, List.nil_append, List.append_assoc]
    rw [sprintfChars_passthrough KMAG.data _ _ (by decide)]
    repeat rw [sprintfChars_cons _ _ _ (by decide)]
    rw [sprintfChars_verb_d]
    repeat rw [sprintfChars_cons _ _ _ (by decide)]
    rw [sprintfChars_passthrough (toString now).data _ _ (toString_int_pf now)]
    repeat rw [sprintfChars_cons _ _ _ (by decide)]
    rw [sprintfChars_pf KRESET.data (by decide)]
    have k1 : KMAG.data = ['\x1B', '[', '3', '5', 'm'] := by decide
    have k2 : KRESET.data = ['\x1B', '[', '0', 'm'] := by decide
    simp only [g7, k1, k2, List.cons_append, List.nil_append, List.append_assoc]
  · simp only [D, debugP, hd, if_true]
    refine congrArg (fun x => sink ++ [x]) ?_
    decide

set_option maxRecDepth 8192 in
/-- Witness for C9: the WARN conjunct at clock 5 and all-enabled flags. -/
theorem c9_tag_interpolated_unescaped_witness :
    (W sourceFlags 5 "p%d" "m" [GoValue.VInt 7] []).2 =
      ["\x1B[33mWARN/p7 : 5 -- m\x1B[0m"] := by
  have h := (c9_tag_interpolated_unescaped sourceFlags 5 [] rfl rfl rfl rfl).2.2.2.1
  rw [h]
  decide


/-- `%%` emits a literal percent and consumes nothing. -/
theorem sprintfChars_pp (cs : List Char) (args : List GoValue) :
    sprintfChars ('%' :: '%' :: cs) args = '%' :: sprintfChars cs args := by
  rw [sprintfChars.eq_def]
  simp

/-- A verb consumes the next argument and emits its rendering. -/
theorem sprintfChars_verb_any (c2 : Char) (cs : List Char) (a : GoValue)
    (args : List GoValue) (h : ¬ c2 = '%') :
    sprintfChars ('%' :: c2 :: cs) (a :: args) =
      (formatVerb c2 a).data ++ sprintfChars cs args := by
  rw [sprintfChars.eq_def]
  simp [h]

theorem sprintf_data (f : String) (a : List GoValue) :
    (sprintf f a).data = sprintfChars f.data a := rfl

/-- When a format's verbs exactly consume the args, scanning it followed by
a continuation splits: the continuation is scanned with no arguments left. -/
theorem sprintfChars_append_exact_aux (r : List Char) :
    ∀ (n : Nat) (f : List Char), f.length ≤ n → ∀ (args : List GoValue),
      consumesExactly f args = true →
      sprintfChars (f ++ r) args = sprintfChars f args ++ sprintfChars r [] := by
  intro n
  induction n with
  | zero =>
    intro f hf args h
    have hf0 : f = [] := List.length_eq_zero.mp (Nat.le_zero.mp hf)
    subst hf0
    rw [consumesExactly.eq_def] at h
    have hargs : args = [] := by simpa using h
    subst hargs
    simp [sprintfChars]
  | succ k ih =>
    intro f hf args h
    rcases f with _ | ⟨c, cs⟩
    · rw [consumesExactly.eq_def] at h
      have hargs : args = [] := by simpa using h
      subst hargs
      simp [sprintfChars]
    · by_cases hc : c = '%'
      · subst hc
        rcases cs with _ | ⟨c2, cs2⟩
        · rw [consumesExactly.eq_def] at h
          simp at h
        · by_cases hc2 : c2 = '%'
          · subst hc2
            rw [consumesExactly.eq_def] at h
            simp only [if_pos rfl, reduceIte] at h
            have hlen : cs2.length ≤ k := by
              simp only [List.length_cons] at hf
              omega
            have hrec := ih cs2 hlen args h
            simp only [List.cons_append]
            rw [sprintfChars_pp, sprintfChars_pp, hrec, List.cons_append]
          · rcases args with _ | ⟨a, rest⟩
            · rw [consumesExactly.eq_def] at h
              simp [hc2] at h
            · rw [consumesExactly.eq_def] at h
              simp only [hc2, if_false, reduceIte] at h
              have hlen : cs2.length ≤ k := by
                simp only [List.length_cons] at hf
                omega
              have hrec := ih cs2 hlen rest h
              simp only [List.cons_append]
              rw [sprintfChars_verb_any c2 _ a _ hc2, sprintfChars_verb_any c2 _ a _ hc2,
                hrec, List.append_assoc]
      · rw [consumesExactly.eq_def] at h
        simp only [hc, if_false, reduceIte] at h
        have hlen : cs.length ≤ k := by
          simp only [List.length_cons] at hf
          omega
        have hrec := ih cs hlen args h
        simp only [List.cons_append]
        rw [sprintfChars_cons c _ _ hc, sprintfChars_cons c _ _ hc, hrec, List.cons_append]

theorem sprintfChars_append_exact (f r : List Char) (args : List GoValue)
    (h : consumesExactly f args = true) :
    sprintfChars (f ++ r) args = sprintfChars f args ++ sprintfChars r [] :=
  sprintfChars_append_exact_aux r f.length f (Nat.le_refl _) args h

set_option maxRecDepth 8192 in
/-- C4 amended: for every enabled level call whose tag contains no '%' and
whose format verbs exactly consume the args, the emitted line consists, in
order, of the level's color code, the literal level name, a '/', the tag,
the separator ' : ', the args-interpolated message (prefixed with
'<timestamp> -- ' for INFO/WARN/ERROR/WTF), and ends with the color-reset
sequence. Proved for all six level functions, general in tag, format, args
and timestamp; for ERROR — whose composed message is re-scanned by the
writer (see C3) — additionally the interpolated message and the stack text
must be '%'-free, and the stack-trace suffix precedes the reset. With a
stray '%' in the tag or surplus args the shape breaks (see the
counterexample and C9). -/
theorem c4_amended_line_shape (fl : Flags) (now : Int) (stackText : String)
    (tag : Tag) (format : String) (args : List GoValue) (sink : List String)
    (htag : ∀ c ∈ tag.data, ¬ c = '%')
    (hexact : consumesExactly format.data args = true) :
    (fl.debugging = true → D fl tag format args sink =
      sink ++ [KNRM ++ "DEBUG" ++ "/" ++ tag ++ " : " ++ sprintf format args ++ KRESET]) ∧
    (fl.v = true → V fl tag format args sink =
      sink ++ [KFNT ++ "VERBOSE" ++ "/" ++ tag ++ " : " ++ sprintf format args ++ KRESET]) ∧
    (fl.i = true → (I fl now tag format args sink).2 =
      sink ++ [KGRN ++ "INFO" ++ "/" ++ tag ++ " : " ++ toString now ++ " -- " ++
        sprintf format args ++ KRESET]) ∧
    (fl.l = true →
      (W fl now tag format args sink).2 =
        sink ++ [KYEL ++ "WARN" ++ "/" ++ tag ++ " : " ++ toString now ++ " -- " ++
          sprintf format args ++ KRESET] ∧
      (WTF fl now tag format args sink).2 =
        sink ++ [KMAG ++ "WTF" ++ "/" ++ tag ++ " : " ++ toString now ++ " -- " ++
          sprintf format args ++ KRESET] ∧
      ((∀ c ∈ (sprintf format args).data, ¬ c = '%') →
        (∀ c ∈ stackText.data, ¬ c = '%') →
        (E fl now stackText tag format args sink).2 =
          sink ++ [KRED ++ "ERROR" ++ "/" ++ tag ++ " : " ++ toString now ++ " -- " ++
            sprintf format args ++ "\n StackTrace : " ++ stackText ++ KRESET])) := by
  refine ⟨fun hd => ?_, fun hv => ?_, fun hi => ?_,
    fun hl => ⟨?_, ?_, fun hfmt hstack => ?_⟩⟩
  · simp only [D, debugP, hd, if_true]
    refine congrArg (fun x => sink ++ [x]) ?_
    apply String.ext
    show sprintfChars (((KNRM ++ "DEBUG") ++ "/" ++ tag ++ " : " ++ format ++
      KRESET).data) args = _
    simp only [String.data_append, sprintf_data, List.cons_append, List.nil_append,
      List.append_assoc]
    rw [sprintfChars_passthrough KNRM.data _ _ (by decide)]
    repeat rw [sprintfChars_cons _ _ _ (by decide)]
    rw [sprintfChars_passthrough tag.data _ _ htag]
    repeat rw [sprintfChars_cons _ _ _ (by decide)]
    rw [sprintfChars_append_exact format.data KRESET.data args hexact,
      sprintfChars_pf KRESET.data (by decide)]
  · simp only [V, verboseP, hv, if_true]
    refine congrArg (fun x => sink ++ [x]) ?_
    apply String.ext
    show sprintfChars (((KFNT ++ "VERBOSE") ++ "/" ++ tag ++ " : " ++ format ++
      KRESET).data) args = _
    simp only [String.data_append, sprintf_data, List.cons_append, List.nil_append,
      List.append_assoc]
    rw [sprintfChars_passthrough KFNT.data _ _ (by decide)]
    repeat rw [sprintfChars_cons _ _ _ (by decide)]
    rw [sprintfChars_passthrough tag.data _ _ htag]
    repeat rw [sprintfChars_cons _ _ _ (by decide)]
    rw [sprintfChars_append_exact format.data KRESET.data args hexact,
      sprintfChars_pf KRESET.data (by decide)]
  · simp only [I, infoP, hi, if_true]
    refine congrArg (fun x => sink ++ [x]) ?_
    apply String.ext
    show sprintfChars (((KGRN ++ "INFO") ++ "/" ++ tag ++ " : " ++
      (toString now ++ " -- " ++ format) ++ KRESET).data) args = _
    simp only [String.data_append, sprintf_data, List.cons_append, List.nil_append,
      List.append_assoc]
    rw [sprintfChars_passthrough KGRN.data _ _ (by decide)]
    repeat rw [sprintfChars_cons _ _ _ (by decide)]
    rw [sprintfChars_passthrough tag.data _ _ htag]
    repeat rw [sprintfChars_cons _ _ _ (by decide)]
    rw [sprintfChars_passthrough (toString now).data _ _ (toString_int_pf now)]
    repeat rw [sprintfChars_cons _ _ _ (by decide)]
    rw [sprintfChars_append_exact format.data KRESET.data args hexact,
      sprintfChars_pf KRESET.data (by decide)]
  · simp only [W, lgP, hl, if_true]
    refine congrArg (fun x => sink ++ [x]) ?_
    apply String.ext
    show sprintfChars (((KYEL ++ "WARN") ++ "/" ++ tag ++ " : " ++
      (toString now ++ " -- " ++ format) ++ KRESET).data) args = _
    simp only [String.data_append, sprintf_data, List.cons_append, List.nil_append,
      List.append_assoc]
    rw [sprintfChars_passthrough KYEL.data _ _ (by decide)]
    repeat rw [sprintfChars_cons _ _ _ (by decide)]
    rw [sprintfChars_passthrough tag.data _ _ htag]
    repeat rw [sprintfChars_cons _ _ _ (by decide)]
    rw [sprintfChars_passthrough (toString now).data _ _ (toString_int_pf now)]
    repeat rw [sprintfChars_cons _ _ _ (by decide)]
    rw [sprintfChars_append_exact format.data KRESET.data args hexact,
      sprintfChars_pf KRESET.data (by decide)]
  · simp only [WTF, lgP, hl, if_true]
    refine congrArg (fun x => sink ++ [x]) ?_
    apply String.ext
    show sprintfChars (((KMAG ++ "WTF") ++ "/" ++ tag ++ " : " ++
      (toString now ++ " -- " ++ format) ++ KRESET).data) args = _
    simp only [String.data_append, sprintf_data, List.cons_append, List.nil_append,
      List.append_assoc]
    rw [sprintfChars_passthrough KMAG.data _ _ (by decide)]
    repeat rw [sprintfChars_cons _ _ _ (by decide)]
    rw [sprintfChars_passthrough tag.data _ _ htag]
    repeat rw [sprintfChars_cons _ _ _ (by decide)]
    rw [sprintfChars_passthrough (toString now).data _ _ (toString_int_pf now)]
    repeat rw [sprintfChars_cons _ _ _ (by decide)]
    rw [sprintfChars_append_exact format.data KRESET.data args hexact,
      sprintfChars_pf KRESET.data (by decide)]
  · have ha : (E fl now stackText tag format args sink).2 =
        sink ++ [sprintf (KRED ++ "ERROR" ++ "/" ++ tag ++ " : " ++ toString now ++
          " -- " ++ sprintf format args ++ "\n StackTrace : " ++ stackText ++
          KRESET) []] := by
      simp only [E, lgP, hl, if_true, stack_sprintf]
      refine congrArg (fun x => sink ++ [x]) ?_
      refine congrArg (fun s => sprintf s []) ?_
      apply String.ext
      simp only [String.data_append, List.append_assoc]
    have hCpf : ∀ c ∈ (KRED ++ "ERROR" ++ "/" ++ tag ++ " : " ++ toString now ++
        " -- " ++ sprintf format args ++ "\n StackTrace : " ++ stackText ++
        KRESET).data, ¬ c = '%' := by
      simp only [String.data_append, List.append_assoc]
      exact pf_append (by decide) (pf_append (by decide) (pf_append (by decide)
        (pf_append htag (pf_append (by decide) (pf_append (toString_int_pf now)
        (pf_append (by decide) (pf_append hfmt (pf_append (by decide)
        (pf_append hstack (by decide))))))))))
    have hline : sprintf (KRED ++ "ERROR" ++ "/" ++ tag ++ " : " ++ toString now ++
        " -- " ++ sprintf format args ++ "\n StackTrace : " ++ stackText ++
        KRESET) [] =
        KRED ++ "ERROR" ++ "/" ++ tag ++ " : " ++ toString now ++ " -- " ++
          sprintf format args ++ "\n StackTrace : " ++ stackText ++ KRESET := by
      apply String.ext
      exact sprintfChars_pf _ hCpf
    rw [ha, hline]

set_option maxRecDepth 8192 in
/-- Witness for C4 amended: the WARN conjunct at tag "net", format
"retry %d", argument 3 and clock 9. -/
theorem c4_amended_line_shape_witness :
    (W sourceFlags 9 "net" "retry %d" [GoValue.VInt 3] []).2 =
      ["\x1B[33mWARN/net : 9 -- retry 3\x1B[0m"] := by
  have h := ((c4_amended_line_shape sourceFlags 9 "st" "net" "retry %d"
      [GoValue.VInt 3] [] (by decide) (by decide)).2.2.2 rfl).1
  rw [h]
  decide

end Dbg
